import Mathlib

/-!
Verification development for the LiteGPT session-store and markdown
interchange core.  The definitions below are a shallow embedding of the
TypeScript source: strings are lists of characters, the browser/session
storage layer is elided (state is passed explicitly), `crypto.randomUUID()`
and `Date.now()` are modelled as explicit parameters, and the asynchronous
generation call is modelled as an oracle describing the external API's
behaviour.
-/

/-- Strings are modelled as lists of characters so that the JS string
operations (split, slice, trim, startsWith) can be given exact executable
counterparts. -/
abbrev Str := List Char

/-- Coerce a Lean string literal to the character-list representation. -/
def str (s : String) : Str := s.toList

/-- JS `line.startsWith(p)`. -/
def hasPfx : Str → Str → Bool
  | [], _ => true
  | _ :: _, [] => false
  | p :: ps, c :: cs => if p = c then hasPfx ps cs else false

/-- Whitespace characters removed by JS `String.prototype.trim` (the common
ASCII subset, which covers every literal appearing in this code base). -/
def isWsChar (c : Char) : Bool := c == ' ' || c == '\t' || c == '\n' || c == '\r'

/-- JS `s.trim()`: remove leading and trailing whitespace. -/
def trimStr (s : Str) : Str :=
  ((s.dropWhile isWsChar).reverse.dropWhile isWsChar).reverse

/-- JS `markdown.split('\n')`: `n` newline characters yield `n + 1` parts;
the empty string yields `[""]`. -/
def splitLines : Str → List Str
  | [] => [[]]
  | c :: cs =>
    match splitLines cs with
    | [] => [[]]
    | l :: ls => if c = '\n' then [] :: l :: ls else (c :: l) :: ls

/-- `src/types`: message role (`'user' | 'ai'`). -/
inductive Role where
  | user
  | ai
  deriving DecidableEq

/-- `src/types`: a chat message. -/
structure Message where
  role : Role
  content : Str
  image : Option Str := none
  deriving DecidableEq

/-- `src/types`: a chat session. `id` (a UUID in the source) is modelled as
an opaque natural number. -/
structure ChatSession where
  id : Nat
  title : Str
  messages : List Message
  createdAt : Nat
  deriving DecidableEq

/-- `utils/chatSession.ts` `createSession()`; the fresh UUID and `Date.now()`
are passed in explicitly. -/
def createSession (freshId : Nat) (now : Nat) : ChatSession :=
  { id := freshId, title := str "New Chat", messages := [], createdAt := now }

/-- `utils/chatImportExport.ts` `exportSessionToMarkdown`: one message block
of the markdown transcript. -/
def msgBlock (m : Message) : Str :=
  str "**" ++ (if m.role = Role.user then str "User" else str "AI")
    ++ str "**: " ++ m.content ++ str "\n\n"

/-- `utils/chatImportExport.ts` `exportSessionToMarkdown(session)`. -/
def exportSessionToMarkdown (s : ChatSession) : Str :=
  s.messages.foldl (fun md m => md ++ msgBlock m) (str "# " ++ s.title ++ str "\n\n")

/-- `utils/chatImportExport.ts` `parseMarkdownToSession`: the body of the
`for (const line of lines)` loop, acting on the `(title, messages)` pair. -/
def parseStep (st : Str × List Message) (line : Str) : Str × List Message :=
  let t := if hasPfx (str "# ") line then trimStr (line.drop 2) else st.1
  let ms := if hasPfx (str "**User**:") line
    then st.2 ++ [{ role := Role.user, content := trimStr (line.drop 9) }]
    else st.2
  let ms := if hasPfx (str "**AI**:") line
    then ms ++ [{ role := Role.ai, content := trimStr (line.drop 7) }]
    else ms
  (t, ms)

/-- `utils/chatImportExport.ts` `parseMarkdownToSession(markdown)`; the fresh
UUID and `Date.now()` are passed in explicitly. -/
def parseMarkdownToSession (freshId : Nat) (now : Nat) (markdown : Str) :
    Option ChatSession :=
  let lines := splitLines markdown
  let r := lines.foldl parseStep (str "Imported Chat", [])
  if r.2.length = 0 then none
  else some { id := freshId, title := r.1, messages := r.2, createdAt := now }

/-! ### The `useChat` hook (chat controller) -/

/-- `hooks/useChat.ts` `MAX_MESSAGES`. -/
def MAX_MESSAGES : Nat := 50

/-- `hooks/useChat.ts`: `updatedMessages.length > MAX_MESSAGES ?
updatedMessages.slice(updatedMessages.length - MAX_MESSAGES) : updatedMessages`
(shared by the user-append and assistant-append updates). -/
def trimTo50 (l : List Message) : List Message :=
  if l.length > MAX_MESSAGES then l.drop (l.length - MAX_MESSAGES) else l

/-- The React state of the `useChat` hook. -/
structure ChatState where
  sessions : List ChatSession
  activeSessionId : Option Nat
  isTyping : Bool
  deriving DecidableEq

/-- `hooks/useChat.ts` `handleSend`: the functional update applied to each
session when the user message is appended (adds the message, trims to 50,
and derives the title on a first message of a default-titled session). -/
def appendUserUpdate (activeId : Nat) (text : Str) (image : Option Str)
    (s : ChatSession) : ChatSession :=
  if s.id = activeId then
    let trimmedMessages :=
      trimTo50 (s.messages ++ [{ role := Role.user, content := text, image := image }])
    let newTitle := if s.messages.length = 0 ∧ s.title = str "New Chat" then
        (if text = [] then str "Image Analysis" else text).take 30
          ++ (if text ≠ [] ∧ 30 < text.length then str "..." else [])
      else s.title
    { s with messages := trimmedMessages, title := newTitle }
  else s

/-- `hooks/useChat.ts` `handleSend`: the functional update appending the
assistant reply (with the 50-message trim) on the success path. -/
def appendAiUpdate (activeId : Nat) (aiText : Str) (s : ChatSession) : ChatSession :=
  if s.id = activeId then
    { s with messages := trimTo50 (s.messages ++ [{ role := Role.ai, content := aiText }]) }
  else s

/-- The fixed error string appended by `handleSend`'s catch branch. -/
def genFailText : Str := str "⚠️ Sorry, I couldn\x27t generate a response."

/-- `hooks/useChat.ts` `handleSend`: the functional update of the catch
branch.  Note that the source appends `errorMsg` without applying the
50-message trim. -/
def appendErrUpdate (activeId : Nat) (s : ChatSession) : ChatSession :=
  if s.id = activeId then
    { s with messages := s.messages ++ [{ role := Role.ai, content := genFailText }] }
  else s

/-- JS `[a, b, c].join('\n')`. -/
def joinWithNl : List Str → Str
  | [] => []
  | [x] => x
  | x :: y :: xs => x ++ '\n' :: joinWithNl (y :: xs)

/-- `hooks/useChat.ts` `handleSend` lines building `fullPrompt` from the
pre-send history (`currentHistory.slice(-10)` serialized as `User:`/`AI:`
lines followed by the new user turn). -/
def buildPrompt (currentHistory : List Message) (text : Str) : Str :=
  let historyWindow := currentHistory.drop (currentHistory.length - 10)
  let promptContext := joinWithNl (historyWindow.map (fun m =>
    (if m.role = Role.user then str "User" else str "AI") ++ str ": " ++ m.content))
  promptContext ++ str "\nUser: "
    ++ (if text = [] then str "[Image uploaded]" else text) ++ str "\nAI:"

/-- `hooks/useChat.ts` `handleSend(text, image?)`, with the awaited
generation call abstracted as an `outcome`: `Except.ok aiText` models the
promise resolving with `aiText`, `Except.error e` models it rejecting
(the stubbed-collaborator-throws scenario).  The returned state is the state
after the `finally` block has run (`isTyping` back to `false`). -/
def handleSend (st : ChatState) (text : Str) (image : Option Str)
    (outcome : Except Str Str) : ChatState :=
  match st.activeSessionId with
  | none => st
  | some sid =>
    let afterUser := st.sessions.map (appendUserUpdate sid text image)
    match outcome with
    | Except.ok aiText =>
      { sessions := afterUser.map (appendAiUpdate sid aiText),
        activeSessionId := st.activeSessionId, isTyping := false }
    | Except.error _ =>
      { sessions := afterUser.map (appendErrUpdate sid),
        activeSessionId := st.activeSessionId, isTyping := false }

/-- `hooks/useChat.ts` `handleCreateSession`: prepend a fresh session,
`slice(0, 10)`, and activate it. -/
def handleCreateSession (st : ChatState) (freshId : Nat) (now : Nat) : ChatState :=
  let newSession := createSession freshId now
  { sessions := (newSession :: st.sessions).take 10,
    activeSessionId := some newSession.id, isTyping := st.isTyping }

/-- `hooks/useChat.ts` `handleDeleteSession(id)`.  In the non-singleton
branch the source reads `newSessions[0].id`; this is modelled with `head?`
(the source would fault on an empty result, a state unreachable through the
exported operations). -/
def handleDeleteSession (st : ChatState) (freshId : Nat) (now : Nat)
    (id : Nat) : ChatState :=
  if st.sessions.length = 1 ∧ st.sessions.head?.map ChatSession.id = some id then
    let newSession := createSession freshId now
    { sessions := [newSession], activeSessionId := some newSession.id,
      isTyping := st.isTyping }
  else
    let newSessions := st.sessions.filter (fun s => s.id ≠ id)
    { sessions := newSessions,
      activeSessionId := if st.activeSessionId = some id
        then newSessions.head?.map ChatSession.id else st.activeSessionId,
      isTyping := st.isTyping }

/-! ### The `ai/generate` module -/

/-- An abstract JavaScript value, carrying exactly the observations the
response-parsing code in `ai/generate.ts` makes: whether it is a string,
its `message`/`content` fields when it is an object, its truthiness, and
its `String(...)` rendering. -/
inductive JsVal where
  | vstr (s : Str)
  | vobj (message : Option JsVal) (content : Option JsVal)
  | vprim (truthy : Bool) (render : Str)

/-- JS truthiness of a value (empty strings are falsy). -/
def jsTruthy : JsVal → Bool
  | JsVal.vstr s => !s.isEmpty
  | JsVal.vobj _ _ => true
  | JsVal.vprim t _ => t

/-- JS `String(v)`. -/
def jsToString : JsVal → Str
  | JsVal.vstr s => s
  | JsVal.vobj _ _ => str "[object Object]"
  | JsVal.vprim _ r => r

/-- JS `v?.message`. -/
def fieldMessage : JsVal → Option JsVal
  | JsVal.vobj m _ => m
  | _ => none

/-- JS `v?.content`. -/
def fieldContent : JsVal → Option JsVal
  | JsVal.vobj _ c => c
  | _ => none

/-- The test `x && typeof x === 'string'` used on an optional chain result:
yields the string when `x` is a non-empty string, otherwise nothing. -/
def truthyStr : Option JsVal → Option Str
  | some (JsVal.vstr s) => if s.isEmpty then none else some s
  | _ => none

/-- JS `a || b` for an optional-chain left operand (`undefined` is falsy). -/
def jsOrElse (a : Option JsVal) (b : JsVal) : JsVal :=
  match a with
  | some v => if jsTruthy v then v else b
  | none => b

/-- `ai/generate.ts` lines parsing the nested response structure into
`responseText`. -/
def parseResponse (response : JsVal) : Str :=
  match response with
  | JsVal.vstr s => s
  | _ =>
    match truthyStr ((fieldMessage response).bind fieldContent) with
    | some s => s
    | none =>
      match truthyStr (fieldContent response) with
      | some s => s
      | none =>
        match truthyStr (fieldMessage response) with
        | some s => s
        | none =>
          jsToString (jsOrElse ((fieldMessage response).bind fieldContent)
            (jsOrElse (fieldContent response) (JsVal.vstr (str "Error: Invalid response"))))

/-- The request payload built by `generateResponse` (plain prompt, or the
multi-modal array when an image is attached). -/
inductive Payload where
  | textOnly (prompt : Str)
  | multiModal (text : Str) (imageUrl : Str)
  deriving DecidableEq

/-- `ai/generate.ts`: payload construction, including the `data:` prefix
normalisation of the image URL. -/
def buildPayload (prompt : Str) (image : Option Str) : Payload :=
  match image with
  | none => Payload.textOnly prompt
  | some img => Payload.multiModal
      (if prompt = [] then str "What is in this image?" else prompt)
      (if hasPfx (str "data:") img then img else str "data:image/jpeg;base64," ++ img)

/-- The behaviour of the environment inside `generateResponse`'s try block:
`puter` may be missing (the local `throw`), the `puter.ai.chat` call may
throw (an `Error`, a string, or any other value — each carrying the
`errorMessage` the catch branch extracts from it), or it may resolve with
an arbitrarily-shaped value. -/
inductive ApiBehavior where
  | puterMissing
  | chatThrowsError (msg : Str)
  | chatThrowsString (s : Str)
  | chatThrowsOther (rendered : Str)
  | chatReturns (v : JsVal)

/-- The try block of `ai/generate.ts` `generateResponse`: it can fail
(`Except.error` carries the `errorMessage` string the catch branch
extracts) or produce the trimmed response text. -/
def generateTry (api : ApiBehavior) (_payload : Payload) : Except Str Str :=
  match api with
  | ApiBehavior.puterMissing =>
    Except.error (str "Puter.js not loaded. Please refresh the page.")
  | ApiBehavior.chatThrowsError m => Except.error m
  | ApiBehavior.chatThrowsString s => Except.error s
  | ApiBehavior.chatThrowsOther r => Except.error r
  | ApiBehavior.chatReturns v => Except.ok (trimStr (parseResponse v))

/-- The concurrency-guard text returned by `generateResponse`. -/
def pleaseWaitText : Str := str "⚠️ Please wait for the current response to finish."

/-- `ai/generate.ts` `generateResponse(prompt, model, image?)`, with the
module-global `isGenerating` flag passed in and the post-call value of the
flag returned.  The guard branch returns before the try block, leaving the
flag untouched; otherwise the catch branch converts every failure into an
`⚠️ AI Error: ...` string and the finally branch resets the flag, so the
function always returns a string and the returned flag is `false`. -/
def generateResponse (isGenerating : Bool) (api : ApiBehavior)
    (prompt : Str) (_model : Str) (image : Option Str) : Str × Bool :=
  if isGenerating then (pleaseWaitText, isGenerating)
  else
    let result := match generateTry api (buildPayload prompt image) with
      | Except.ok t => t
      | Except.error m => str "⚠️ AI Error: " ++ m
    (result, false)

/-! ### Composition of `handleSend` with the real `generateResponse` -/

/-- The controller state together with the `ai/generate` module's global
`isGenerating` flag. -/
structure FullState where
  chat : ChatState
  isGenerating : Bool
  deriving DecidableEq

/-- `hooks/useChat.ts` `handleSend`: `currentHistory` (the active session's
messages before the user append, `[]` if the session is not found). -/
def activeHistory (c : ChatState) (sid : Nat) : List Message :=
  match c.sessions.find? (fun s => s.id = sid) with
  | some s => s.messages
  | none => []

/-- `handleSend` composed with the real `generateResponse`.  Because
`generateResponse` catches every failure and returns a string, the awaited
call always resolves, so the composition always takes the success branch of
`handleSend` (`Except.ok`); the catch branch of `handleSend` is unreachable
through a `generateResponse` failure. -/
def handleSendFull (st : FullState) (text : Str) (image : Option Str)
    (model : Str) (api : ApiBehavior) : FullState :=
  match st.chat.activeSessionId with
  | none => st
  | some sid =>
    let fullPrompt := buildPrompt (activeHistory st.chat sid) text
    let r := generateResponse st.isGenerating api fullPrompt model image
    { chat := handleSend st.chat text image (Except.ok r.1), isGenerating := r.2 }

/-- Fold a sequence of new-chat clicks (each with its fresh id and
timestamp) over the controller state. -/
def runCreates (st : ChatState) (ps : List (Nat × Nat)) : ChatState :=
  ps.foldl (fun s p => handleCreateSession s p.1 p.2) st

/-- Fold a sequence of sends over the controller state.  Each step first
selects an active session (`setActiveSessionId`, possibly unchanged) and
then performs `handleSend` with its text, optional image, and generation
outcome, so the sequence covers sends interleaved with session switches —
in particular sends issued after a failed send. -/
def runSends (st : ChatState)
    (sends : List (Option Nat × Str × Option Str × Except Str Str)) : ChatState :=
  sends.foldl
    (fun s q => handleSend { s with activeSessionId := q.1 } q.2.1 q.2.2.1 q.2.2.2) st

/-! ### Helper lemmas -/

lemma trimTo50_length (l : List Message) : (trimTo50 l).length = min l.length 50 := by
  unfold trimTo50 MAX_MESSAGES
  split <;> simp <;> omega

lemma trimTo50_eq_drop (l : List Message) : trimTo50 l = l.drop (l.length - 50) := by
  unfold trimTo50 MAX_MESSAGES
  split
  · rfl
  · have h : l.length - 50 = 0 := by omega
    simp [h]

lemma appendUserUpdate_id (sid : Nat) (text : Str) (image : Option Str)
    (s : ChatSession) : (appendUserUpdate sid text image s).id = s.id := by
  unfold appendUserUpdate
  split <;> rfl

lemma appendAiUpdate_id (sid : Nat) (aiText : Str) (s : ChatSession) :
    (appendAiUpdate sid aiText s).id = s.id := by
  unfold appendAiUpdate
  split <;> rfl

lemma appendErrUpdate_id (sid : Nat) (s : ChatSession) :
    (appendErrUpdate sid s).id = s.id := by
  unfold appendErrUpdate
  split <;> rfl

lemma appendUserUpdate_matched_length (sid : Nat) (text : Str) (image : Option Str)
    (s : ChatSession) (hid : s.id = sid) :
    (appendUserUpdate sid text image s).messages.length ≤ 50 := by
  simp [appendUserUpdate, hid, trimTo50_length]

lemma appendUserUpdate_unmatched (sid : Nat) (text : Str) (image : Option Str)
    (s : ChatSession) (hid : ¬ s.id = sid) :
    appendUserUpdate sid text image s = s := by
  simp [appendUserUpdate, hid]

lemma appendAiUpdate_matched_length (sid : Nat) (aiText : Str)
    (s : ChatSession) (hid : s.id = sid) :
    (appendAiUpdate sid aiText s).messages.length ≤ 50 := by
  simp [appendAiUpdate, hid, trimTo50_length]

lemma appendAiUpdate_unmatched (sid : Nat) (aiText : Str)
    (s : ChatSession) (hid : ¬ s.id = sid) :
    appendAiUpdate sid aiText s = s := by
  simp [appendAiUpdate, hid]

lemma appendErrUpdate_matched_length (sid : Nat) (s : ChatSession)
    (hid : s.id = sid) :
    (appendErrUpdate sid s).messages.length = s.messages.length + 1 := by
  simp [appendErrUpdate, hid]

lemma appendErrUpdate_unmatched (sid : Nat) (s : ChatSession)
    (hid : ¬ s.id = sid) : appendErrUpdate sid s = s := by
  simp [appendErrUpdate, hid]

lemma sendOk_session_le (sid : Nat) (text aiText : Str) (image : Option Str)
    (s : ChatSession) (h : s.messages.length ≤ 51) :
    (appendAiUpdate sid aiText (appendUserUpdate sid text image s)).messages.length
      ≤ 51 := by
  by_cases hid : s.id = sid
  · have := appendAiUpdate_matched_length sid aiText (appendUserUpdate sid text image s)
      (by rw [appendUserUpdate_id]; exact hid)
    omega
  · rw [appendUserUpdate_unmatched _ _ _ _ hid, appendAiUpdate_unmatched _ _ _ hid]
    exact h

lemma sendErr_session_le (sid : Nat) (text : Str) (image : Option Str)
    (s : ChatSession) (h : s.messages.length ≤ 51) :
    (appendErrUpdate sid (appendUserUpdate sid text image s)).messages.length ≤ 51 := by
  by_cases hid : s.id = sid
  · rw [appendErrUpdate_matched_length _ _ (by rw [appendUserUpdate_id]; exact hid)]
    have := appendUserUpdate_matched_length sid text image s hid
    omega
  · rw [appendUserUpdate_unmatched _ _ _ _ hid, appendErrUpdate_unmatched _ _ hid]
    exact h

lemma handleSend_sessions_le51 (st : ChatState) (text : Str) (image : Option Str)
    (outcome : Except Str Str)
    (h : ∀ s ∈ st.sessions, s.messages.length ≤ 51) :
    ∀ s_ ∈ (handleSend st text image outcome).sessions, s_.messages.length ≤ 51 := by
  intro s_ hs
  cases hact : st.activeSessionId with
  | none => simp only [handleSend, hact] at hs; exact h s_ hs
  | some sid =>
    cases outcome with
    | ok aiText =>
      simp only [handleSend, hact, List.map_map, List.mem_map] at hs
      obtain ⟨s, hmem, rfl⟩ := hs
      exact sendOk_session_le sid text aiText image s (h s hmem)
    | error err =>
      simp only [handleSend, hact, List.map_map, List.mem_map] at hs
      obtain ⟨s, hmem, rfl⟩ := hs
      exact sendErr_session_le sid text image s (h s hmem)

/-! ### Claim theorems -/

/-- C1 (counterexample): the claim "the session's message list never holds
more than 50 messages, on success or on generation failure" is false as
stated: a session already holding 50 messages holds 51 after a `send`
whose generation call fails, because the catch branch appends the error
message without applying the trim. -/
theorem send_error_append_exceeds_cap :
    (handleSend
      ⟨[⟨1, str "T", List.replicate 50 ⟨Role.user, str "m", none⟩, 0⟩], some 1, false⟩
      (str "x") none (Except.error (str "boom"))).sessions.map
        (fun s => s.messages.length) = [51] := by decide

/-- C1 (amended): across every sequence of sends — including sends issued
after a failed one, and with the active session switched arbitrarily
between sends — no session ever holds more than 51 messages; with no
hypothesis on the starting lengths, a send with a successful generation
leaves the active session with at most 50 messages (the user turn and the
assistant turn both re-apply the trim, so even a session a previous
failure left at 51 is trimmed back), a send with a failed generation
leaves it with at most 51, and the trim retains exactly the most recent
messages in their original order (`drop (length - 50)`); only the failure
assistant turn, appended without trimming, can produce the 51st message. -/
theorem send_trim_cap_amended :
    (∀ (st : ChatState) (text : Str) (image : Option Str) (aiText : Str)
      (sid : Nat), st.activeSessionId = some sid →
      ∀ s_ ∈ (handleSend st text image (Except.ok aiText)).sessions,
        s_.id = sid → s_.messages.length ≤ 50) ∧
    (∀ (st : ChatState) (text : Str) (image : Option Str) (err : Str)
      (sid : Nat), st.activeSessionId = some sid →
      ∀ s_ ∈ (handleSend st text image (Except.error err)).sessions,
        s_.id = sid → s_.messages.length ≤ 51) ∧
    (∀ (st : ChatState)
      (sends : List (Option Nat × Str × Option Str × Except Str Str)),
      (∀ s ∈ st.sessions, s.messages.length ≤ 51) →
      ∀ s_ ∈ (runSends st sends).sessions, s_.messages.length ≤ 51) ∧
    (∀ l : List Message, trimTo50 l = l.drop (l.length - 50)) := by
  refine ⟨?_, ?_, ?_, trimTo50_eq_drop⟩
  · intro st text image aiText sid hact s_ hs hid
    simp only [handleSend, hact, List.map_map, List.mem_map] at hs
    obtain ⟨s, hmem, rfl⟩ := hs
    have hidu : (appendUserUpdate sid text image s).id = sid := by
      have := appendAiUpdate_id sid aiText (appendUserUpdate sid text image s)
      simp only [Function.comp_apply] at hid
      omega
    exact appendAiUpdate_matched_length sid aiText _ hidu
  · intro st text image err sid hact s_ hs hid
    simp only [handleSend, hact, List.map_map, List.mem_map] at hs
    obtain ⟨s, hmem, rfl⟩ := hs
    have hidu : (appendUserUpdate sid text image s).id = sid := by
      have := appendErrUpdate_id sid (appendUserUpdate sid text image s)
      simp only [Function.comp_apply] at hid
      omega
    rw [show ((appendErrUpdate sid ∘ appendUserUpdate sid text image) s)
        = appendErrUpdate sid (appendUserUpdate sid text image s) from rfl,
      appendErrUpdate_matched_length _ _ hidu]
    have := appendUserUpdate_matched_length sid text image s
      (by rw [← appendUserUpdate_id sid text image s]; exact hidu)
    omega
  · intro st sends h
    induction sends generalizing st with
    | nil => exact h
    | cons q rest ih =>
      exact ih _ (handleSend_sessions_le51 _ q.2.1 q.2.2.1 q.2.2.2 h)

/-- C1 (witness for the amended theorem): a session a failure left at 51
messages is trimmed back to 50 by the next successful send, and a sequence
holding a failed send then a successful one never exceeds 51. -/
theorem send_trim_cap_amended_w :
    (∀ s_ ∈ (handleSend
        ⟨[⟨1, str "T", List.replicate 51 ⟨Role.user, str "m", none⟩, 0⟩], some 1, false⟩
        (str "x") none (Except.ok (str "y"))).sessions,
      s_.id = 1 → s_.messages.length ≤ 50) ∧
    (∀ s_ ∈ (runSends
        ⟨[⟨1, str "T", List.replicate 51 ⟨Role.user, str "m", none⟩, 0⟩], some 1, false⟩
        [(some 1, str "a", none, Except.error (str "e")),
         (some 1, str "b", none, Except.ok (str "r"))]).sessions,
      s_.messages.length ≤ 51) :=
  ⟨send_trim_cap_amended.1
      ⟨[⟨1, str "T", List.replicate 51 ⟨Role.user, str "m", none⟩, 0⟩], some 1, false⟩
      (str "x") none (str "y") 1 rfl,
   send_trim_cap_amended.2.2.1
      ⟨[⟨1, str "T", List.replicate 51 ⟨Role.user, str "m", none⟩, 0⟩], some 1, false⟩
      [(some 1, str "a", none, Except.error (str "e")),
       (some 1, str "b", none, Except.ok (str "r"))] (by decide)⟩

/-- C4: the claim (and the parser's own doc comment, "First H1 (#) becomes
the title") says the title comes from the first line beginning with `# `,
but the loop overwrites the title on every such line, so the last one wins:
on `"# A\n# B\n**User**: hi"` the code produces title `"B"`, not `"A"`. -/
theorem parse_title_last_h1_wins :
    parseMarkdownToSession 3 4 (str "# A\n# B\n**User**: hi")
      = some ⟨3, str "B", [⟨Role.user, str "hi", none⟩], 4⟩ := by decide

/-- C6: the session store honours the 10-session cap: any sequence of
new-chat clicks starting within the cap keeps the count at 10 or fewer, the
most recently created session is always first, and a click on a full store
evicts the session at the tail of the list (the oldest by insertion). -/
theorem createSession_cap_invariant :
    (∀ (st : ChatState) (ps : List (Nat × Nat)), st.sessions.length ≤ 10 →
      (runCreates st ps).sessions.length ≤ 10) ∧
    (∀ (st : ChatState) (ps : List (Nat × Nat)) (freshId now : Nat),
      (runCreates st (ps ++ [(freshId, now)])).sessions.head?
        = some (createSession freshId now)) ∧
    (∀ (st : ChatState) (freshId now : Nat), st.sessions.length = 10 →
      (handleCreateSession st freshId now).sessions
        = createSession freshId now :: st.sessions.dropLast) := by
  have hlen : ∀ (st : ChatState) (fid now : Nat),
      (handleCreateSession st fid now).sessions.length ≤ 10 := by
    intro st fid now
    simp [handleCreateSession, List.length_take]
  refine ⟨?_, ?_, ?_⟩
  · intro st ps h
    induction ps generalizing st with
    | nil => exact h
    | cons p rest ih => exact ih _ (hlen st p.1 p.2)
  · intro st ps freshId now
    rw [runCreates, List.foldl_append]
    rfl
  · intro st freshId now h
    simp only [handleCreateSession]
    rw [show (10 : Nat) = 9 + 1 from rfl, List.take_succ_cons,
      List.dropLast_eq_take, h]

/-- C6 (witness). -/
theorem createSession_cap_invariant_w :
    (runCreates ⟨[], none, false⟩ [(1, 2), (3, 4)]).sessions.length ≤ 10 ∧
    (handleCreateSession
      ⟨(List.range 10).map (fun i => createSession i 0), some 0, false⟩
      77 88).sessions
      = createSession 77 88
        :: ((List.range 10).map (fun i => createSession i 0)).dropLast :=
  ⟨createSession_cap_invariant.1 _ [(1, 2), (3, 4)] (by decide),
   createSession_cap_invariant.2.2 _ 77 88 (by decide)⟩

/-- C8: deleting the only session of the store replaces it with a freshly
created session (default title, no messages) with a new identity, which
becomes the active session. -/
theorem deleteSession_singleton_replaces :
    ∀ (s : ChatSession) (act : Option Nat) (typ : Bool) (freshId now : Nat),
      freshId ≠ s.id →
      handleDeleteSession ⟨[s], act, typ⟩ freshId now s.id
        = ⟨[createSession freshId now], some freshId, typ⟩ ∧
      (createSession freshId now).id ≠ s.id ∧
      (createSession freshId now).title = str "New Chat" ∧
      (createSession freshId now).messages = [] := by
  intro s act typ freshId now h
  refine ⟨?_, h, rfl, rfl⟩
  simp [handleDeleteSession, createSession]

/-- C8 (witness). -/
theorem deleteSession_singleton_replaces_w :
    handleDeleteSession
        ⟨[⟨5, str "T", [⟨Role.user, str "m", none⟩], 3⟩], some 5, false⟩ 9 11 5
      = ⟨[createSession 9 11], some 9, false⟩ :=
  (deleteSession_singleton_replaces
    ⟨5, str "T", [⟨Role.user, str "m", none⟩], 3⟩
    (some 5) false 9 11 (by decide)).1

/-- C5: with a generation collaborator that throws, `send` appends exactly
one new assistant message after the user turn, whose content is the fixed
error string, and the typing flag is `false` once `send` completes —
regardless of outcome (the `finally` clause). -/
theorem send_failure_appends_fixed_error :
    ∀ (st : ChatState) (text : Str) (image : Option Str) (err aiText : Str)
      (sid : Nat), st.activeSessionId = some sid →
      (handleSend st text image (Except.error err)).isTyping = false ∧
      (handleSend st text image (Except.ok aiText)).isTyping = false ∧
      (handleSend st text image (Except.error err)).sessions
        = st.sessions.map (fun s =>
            if s.id = sid then
              { appendUserUpdate sid text image s with
                  messages := (appendUserUpdate sid text image s).messages
                    ++ [{ role := Role.ai, content := genFailText }] }
            else s) := by
  intro st text image err aiText sid h
  refine ⟨by simp [handleSend, h], by simp [handleSend, h], ?_⟩
  simp only [handleSend, h, List.map_map]
  apply List.map_congr_left
  intro s _
  by_cases hid : s.id = sid
  · have hid2 : (appendUserUpdate sid text image s).id = sid := by
      simp [appendUserUpdate, hid]
    simp [Function.comp, appendErrUpdate, hid, hid2]
  · have hid2 : (appendUserUpdate sid text image s).id = s.id := by
      simp [appendUserUpdate, hid]
    simp [Function.comp, appendErrUpdate, appendUserUpdate, hid, hid2]

/-- C5 (witness). -/
theorem send_failure_appends_fixed_error_w :
    (handleSend ⟨[⟨1, str "T", [], 0⟩], some 1, true⟩
      (str "hi") none (Except.error (str "x"))).isTyping = false :=
  (send_failure_appends_fixed_error
    ⟨[⟨1, str "T", [], 0⟩], some 1, true⟩
    (str "hi") none (str "x") (str "y") 1 rfl).1

/-- C7: title auto-derivation.  A send with no active session leaves the
state unchanged; otherwise, after `send` the title of each session equals
the derived title (message text truncated to 30 characters with an ellipsis
marker when longer than 30, or the fallback label for empty text) exactly
when that session is the active one, had zero messages, and still carried
the default sentinel — and is unchanged in every other case. -/
theorem send_title_derivation :
    (∀ (st : ChatState) (text : Str) (image : Option Str)
      (outcome : Except Str Str), st.activeSessionId = none →
      handleSend st text image outcome = st) ∧
    (∀ (st : ChatState) (text : Str) (image : Option Str)
      (outcome : Except Str Str) (sid : Nat), st.activeSessionId = some sid →
      (handleSend st text image outcome).sessions.map ChatSession.title
        = st.sessions.map (fun s =>
            if s.id = sid ∧ s.messages.length = 0 ∧ s.title = str "New Chat" then
              (if text = [] then str "Image Analysis" else text).take 30
                ++ (if text ≠ [] ∧ 30 < text.length then str "..." else [])
            else s.title)) := by
  constructor
  · intro st text image outcome h
    simp [handleSend, h]
  · intro st text image outcome sid h
    have huser : ∀ s : ChatSession,
        (appendUserUpdate sid text image s).title
          = if s.id = sid ∧ s.messages.length = 0 ∧ s.title = str "New Chat" then
              (if text = [] then str "Image Analysis" else text).take 30
                ++ (if text ≠ [] ∧ 30 < text.length then str "..." else [])
            else s.title := by
      intro s
      by_cases hid : s.id = sid
      · by_cases hcond : s.messages.length = 0 ∧ s.title = str "New Chat" <;>
          simp [appendUserUpdate, hid, hcond]
      · simp [appendUserUpdate, hid]
    cases outcome with
    | ok aiText =>
      simp only [handleSend, h, List.map_map]
      apply List.map_congr_left
      intro s _
      have : (appendAiUpdate sid aiText (appendUserUpdate sid text image s)).title
          = (appendUserUpdate sid text image s).title := by
        simp only [appendAiUpdate]
        split <;> rfl
      simpa [Function.comp, this] using huser s
    | error err =>
      simp only [handleSend, h, List.map_map]
      apply List.map_congr_left
      intro s _
      have : (appendErrUpdate sid (appendUserUpdate sid text image s)).title
          = (appendUserUpdate sid text image s).title := by
        simp only [appendErrUpdate]
        split <;> rfl
      simpa [Function.comp, this] using huser s

/-- C7 (witness). -/
theorem send_title_derivation_w :
    (handleSend ⟨[⟨1, str "New Chat", [], 0⟩], some 1, false⟩
      (str "Hello world this is a fairly long opening message") none
      (Except.ok (str "y"))).sessions.map ChatSession.title
      = [str "Hello world this is a fairly l..."] := by
  have := send_title_derivation.2
    ⟨[⟨1, str "New Chat", [], 0⟩], some 1, false⟩
    (str "Hello world this is a fairly long opening message") none
    (Except.ok (str "y")) 1 rfl
  rw [this]
  decide

/-- C2 (counterexample): the claim "a second send while the first is
pending does not append a duplicate user message" is false as stated: with
the guard flag set (first generation unresolved), a second `send` of the
same text still appends its user message — the concurrency guard lives in
`generateResponse`, not in `handleSend` — and the please-wait text comes
back as the assistant turn. -/
theorem send_while_pending_appends_user :
    (handleSendFull
      ⟨⟨[⟨1, str "T", [⟨Role.user, str "hi", none⟩], 0⟩], some 1, false⟩, true⟩
      (str "hi") none (str "gpt-4o-mini") ApiBehavior.puterMissing).chat.sessions.map
        (fun s => s.messages)
      = [[⟨Role.user, str "hi", none⟩, ⟨Role.user, str "hi", none⟩,
          ⟨Role.ai, pleaseWaitText, none⟩]] := by decide

/-- C2 (amended): a second `send` issued while a generation call is still
unresolved never invokes the external API (its result is independent of the
API behaviour), receives the fixed please-wait text which is appended as
the assistant turn, and leaves the guard flag set — but its user message is
still appended to the active session. -/
theorem send_while_pending_behavior :
    ∀ (st : FullState) (text : Str) (image : Option Str) (model : Str)
      (api api2 : ApiBehavior) (sid : Nat),
      st.isGenerating = true → st.chat.activeSessionId = some sid →
      handleSendFull st text image model api
        = handleSendFull st text image model api2 ∧
      (handleSendFull st text image model api).chat.sessions
        = st.chat.sessions.map (fun s =>
            appendAiUpdate sid pleaseWaitText (appendUserUpdate sid text image s)) ∧
      (handleSendFull st text image model api).isGenerating = true := by
  intro st text image model api api2 sid hg hact
  refine ⟨?_, ?_, ?_⟩ <;>
    simp [handleSendFull, hact, generateResponse, hg, handleSend, List.map_map,
      Function.comp]

/-- C2 (witness for the amended theorem). -/
theorem send_while_pending_behavior_w :
    (handleSendFull
      ⟨⟨[⟨1, str "T", [], 0⟩], some 1, false⟩, true⟩
      (str "hey") none (str "gpt-4o") ApiBehavior.puterMissing).isGenerating
      = true :=
  (send_while_pending_behavior
    ⟨⟨[⟨1, str "T", [], 0⟩], some 1, false⟩, true⟩
    (str "hey") none (str "gpt-4o") ApiBehavior.puterMissing
    (ApiBehavior.chatThrowsString (str "e")) 1 rfl rfl).2.2

/-- C10: `generateResponse` is total at its boundary: an unguarded call
always ends with the module-wide flag reset to `false` (the finally block);
every failure of the try block — `puter` missing, or `puter.ai.chat`
throwing any value — is converted into the `⚠️ AI Error:` string rather
than propagated; and therefore the composition of `handleSend` with the
real `generateResponse` always takes `handleSend`'s success branch, so its
catch branch is unreachable through a `generateResponse` failure. -/
theorem generateResponse_total_boundary :
    (∀ (api : ApiBehavior) (prompt model : Str) (image : Option Str),
      (generateResponse false api prompt model image).2 = false) ∧
    (∀ (api : ApiBehavior) (prompt model : Str) (image : Option Str) (m : Str),
      generateTry api (buildPayload prompt image) = Except.error m →
      (generateResponse false api prompt model image).1
        = str "⚠️ AI Error: " ++ m) ∧
    (∀ (st : FullState) (text : Str) (image : Option Str) (model : Str)
      (api : ApiBehavior) (sid : Nat), st.chat.activeSessionId = some sid →
      handleSendFull st text image model api
        = ⟨handleSend st.chat text image (Except.ok
              (generateResponse st.isGenerating api
                (buildPrompt (activeHistory st.chat sid) text) model image).1),
            (generateResponse st.isGenerating api
              (buildPrompt (activeHistory st.chat sid) text) model image).2⟩) := by
  refine ⟨?_, ?_, ?_⟩
  · intro api prompt model image
    simp [generateResponse]
  · intro api prompt model image m h
    simp [generateResponse, h]
  · intro st text image model api sid hact
    simp [handleSendFull, hact]

/-- C10 (witness). -/
theorem generateResponse_total_boundary_w :
    (generateResponse false ApiBehavior.puterMissing (str "p") (str "m") none).1
      = str "⚠️ AI Error: " ++ str "Puter.js not loaded. Please refresh the page." :=
  generateResponse_total_boundary.2.1 ApiBehavior.puterMissing
    (str "p") (str "m") none (str "Puter.js not loaded. Please refresh the page.") rfl

lemma foldl_parseStep_msgs_eq_nil :
    ∀ (lines : List Str) (t : Str) (acc : List Message),
      (lines.foldl parseStep (t, acc)).2 = [] ↔
        (acc = [] ∧ ∀ l ∈ lines, hasPfx (str "**User**:") l = false
          ∧ hasPfx (str "**AI**:") l = false) := by
  intro lines
  induction lines with
  | nil => intro t acc; simp
  | cons l ls ih =>
    intro t acc
    simp only [List.foldl_cons]
    by_cases hu : hasPfx (str "**User**:") l <;>
      by_cases ha : hasPfx (str "**AI**:") l <;>
        simp [parseStep, hu, ha, ih]

/-- C9: `import` returns a failure exactly when zero messages were
recovered, i.e. when no line of the input starts with `**User**:` or
`**AI**:`; any other malformed surrounding text never causes rejection. -/
theorem parse_fails_iff_no_message_lines :
    ∀ (freshId now : Nat) (md : Str),
      parseMarkdownToSession freshId now md = none ↔
        ∀ l ∈ splitLines md, hasPfx (str "**User**:") l = false
          ∧ hasPfx (str "**AI**:") l = false := by
  intro freshId now md
  constructor
  · intro h
    by_cases hz :
        ((splitLines md).foldl parseStep (str "Imported Chat", [])).2.length = 0
    · exact ((foldl_parseStep_msgs_eq_nil _ _ _).mp (List.length_eq_zero.mp hz)).2
    · simp [parseMarkdownToSession, hz] at h
  · intro h
    have hnil : ((splitLines md).foldl parseStep (str "Imported Chat", [])).2 = [] :=
      (foldl_parseStep_msgs_eq_nil _ _ _).mpr ⟨rfl, h⟩
    simp [parseMarkdownToSession, hnil]

/-- C9 (witness). -/
theorem parse_fails_iff_no_message_lines_w :
    parseMarkdownToSession 0 0 (str "hello\n# Title\nno messages here") = none :=
  (parse_fails_iff_no_message_lines 0 0
    (str "hello\n# Title\nno messages here")).mpr (by decide)


lemma splitLines_ne_nil (s : Str) : splitLines s ≠ [] := by
  induction s with
  | nil => simp [splitLines]
  | cons c cs ih =>
    simp only [splitLines]
    cases h : splitLines cs with
    | nil => simp
    | cons l ls => by_cases hc : c = '\n' <;> simp [hc]

lemma splitLines_append_nl (a l : Str) (h : '\n' ∉ a) :
    splitLines (a ++ '\n' :: l) = a :: splitLines l := by
  induction a with
  | nil =>
    simp only [List.nil_append, splitLines]
    cases hs : splitLines l with
    | nil => exact absurd hs (splitLines_ne_nil l)
    | cons x xs => simp
  | cons c cs ih =>
    have hc : c ≠ '\n' := fun e => h (by simp [e])
    have hcs : '\n' ∉ cs := fun hx => h (List.mem_cons_of_mem _ hx)
    show splitLines (c :: (cs ++ '\n' :: l)) = (c :: cs) :: splitLines l
    simp only [splitLines]
    rw [ih hcs]
    simp [hc]

lemma splitLines_nl_cons (l : Str) : splitLines ('\n' :: l) = [] :: splitLines l := by
  have := splitLines_append_nl [] l (by simp)
  simpa using this

lemma msgBlock_user (m : Message) (hrole : m.role = Role.user) (rest : Str) :
    msgBlock m ++ rest
      = (str "**User**: " ++ m.content) ++ '\n' :: ('\n' :: rest) := by
  simp only [msgBlock, hrole, if_pos, List.append_assoc]
  rfl

lemma msgBlock_ai (m : Message) (hrole : m.role = Role.ai) (rest : Str) :
    msgBlock m ++ rest
      = (str "**AI**: " ++ m.content) ++ '\n' :: ('\n' :: rest) := by
  simp only [msgBlock, hrole, List.append_assoc]
  rfl

lemma foldl_append_blocks (ms : List Message) (init : Str) :
    ms.foldl (fun md m => md ++ msgBlock m) init
      = init ++ (ms.map msgBlock).flatten := by
  induction ms generalizing init with
  | nil => simp
  | cons m rest ih => simp [ih, List.append_assoc]

lemma parseStep_title_line (st : Str × List Message) (t : Str) :
    parseStep st (str "# " ++ t) = (trimStr t, st.2) := rfl

lemma parseStep_user_line (st : Str × List Message) (c : Str) :
    parseStep st (str "**User**: " ++ c)
      = (st.1, st.2 ++ [{ role := Role.user, content := trimStr c }]) := rfl

lemma parseStep_ai_line (st : Str × List Message) (c : Str) :
    parseStep st (str "**AI**: " ++ c)
      = (st.1, st.2 ++ [{ role := Role.ai, content := trimStr c }]) := rfl

lemma foldl_parseStep_blocks :
    ∀ (ms : List Message) (t : Str) (acc : List Message),
      (∀ m ∈ ms, '\n' ∉ m.content ∧ trimStr m.content = m.content) →
      ((splitLines ((ms.map msgBlock).flatten)).foldl parseStep (t, acc))
        = (t, acc ++ ms.map (fun m => { role := m.role, content := m.content })) := by
  intro ms
  induction ms with
  | nil =>
    intro t acc _
    show parseStep (t, acc) [] = (t, acc ++ [])
    rw [List.append_nil]
    rfl
  | cons m rest ih =>
    intro t acc h
    obtain ⟨hnl, htrim⟩ := h m (List.mem_cons_self m rest)
    have hrest := fun x hx => h x (List.mem_cons_of_mem m hx)
    rw [List.map_cons, List.flatten_cons]
    cases hrole : m.role with
    | user =>
      have hno : '\n' ∉ (str "**User**: " ++ m.content) := by
        intro hx
        rcases List.mem_append.mp hx with h1 | h2
        · exact absurd h1 (by decide)
        · exact hnl h2
      rw [msgBlock_user m hrole, splitLines_append_nl _ _ hno, splitLines_nl_cons,
        List.foldl_cons, List.foldl_cons, parseStep_user_line]
      have : parseStep (t, acc ++ [{ role := Role.user, content := trimStr m.content }]) [] =
          (t, acc ++ [{ role := Role.user, content := trimStr m.content }]) := rfl
      rw [this, htrim, ih _ _ hrest]
      simp [hrole]
    | ai =>
      have hno : '\n' ∉ (str "**AI**: " ++ m.content) := by
        intro hx
        rcases List.mem_append.mp hx with h1 | h2
        · exact absurd h1 (by decide)
        · exact hnl h2
      rw [msgBlock_ai m hrole, splitLines_append_nl _ _ hno, splitLines_nl_cons,
        List.foldl_cons, List.foldl_cons, parseStep_ai_line]
      have : parseStep (t, acc ++ [{ role := Role.ai, content := trimStr m.content }]) [] =
          (t, acc ++ [{ role := Role.ai, content := trimStr m.content }]) := rfl
      rw [this, htrim, ih _ _ hrest]
      simp [hrole]

/-- C3 (amended): for every session with at least one message, whose title
contains no newline and has no surrounding whitespace, and whose message
contents contain no newline, have no surrounding whitespace, and do not
start with the reserved prefixes, `import(export(S))` succeeds and
reproduces the title and every message's role and content exactly (images
are dropped).  The whitespace conditions are forced on the claim by the
`trim()` the parser applies to each recovered title and content. -/
theorem export_import_roundtrip :
    ∀ (s : ChatSession) (freshId now : Nat),
      s.messages ≠ [] →
      '\n' ∉ s.title → trimStr s.title = s.title →
      (∀ m ∈ s.messages, '\n' ∉ m.content ∧ trimStr m.content = m.content ∧
        hasPfx (str "**User**:") m.content = false ∧
        hasPfx (str "**AI**:") m.content = false) →
      parseMarkdownToSession freshId now (exportSessionToMarkdown s)
        = some ⟨freshId, s.title,
            s.messages.map (fun m => ⟨m.role, m.content, none⟩), now⟩ := by
  intro s freshId now hne htnl httrim hm
  have hexp : exportSessionToMarkdown s
      = (str "# " ++ s.title) ++ '\n' :: ('\n' :: (s.messages.map msgBlock).flatten) := by
    rw [exportSessionToMarkdown, foldl_append_blocks]
    simp only [List.append_assoc]
    rfl
  have hno : '\n' ∉ (str "# " ++ s.title) := by
    intro hx
    rcases List.mem_append.mp hx with h1 | h2
    · exact absurd h1 (by decide)
    · exact htnl h2
  have hfold : ((splitLines (exportSessionToMarkdown s)).foldl parseStep
      (str "Imported Chat", []))
      = (s.title, s.messages.map (fun m => { role := m.role, content := m.content })) := by
    rw [hexp, splitLines_append_nl _ _ hno, splitLines_nl_cons,
      List.foldl_cons, parseStep_title_line, httrim, List.foldl_cons]
    have h0 : parseStep (s.title, ([] : List Message)) [] = (s.title, []) := rfl
    rw [h0]
    have := foldl_parseStep_blocks s.messages s.title []
      (fun m hm2 => ⟨(hm m hm2).1, (hm m hm2).2.1⟩)
    simpa using this
  have hlen : ¬ ((s.messages.map
      (fun m => ({ role := m.role, content := m.content } : Message))).length = 0) := by
    simp [List.length_eq_zero, hne]
  simp [parseMarkdownToSession, hfold, hlen, hne]

/-- C3 (counterexample): the claim is false as stated: the session with
title `"T"` and single user message `" hi"` satisfies the claim's
conditions (no newline, not starting with a reserved prefix), yet the
round trip yields content `"hi"` — the parser trims each recovered
content, so leading/trailing whitespace is not reproduced exactly. -/
theorem export_import_not_exact :
    (([⟨Role.user, str " hi", none⟩] : List Message).all
        (fun m => m.content.all (fun c => c != '\n')
          && !hasPfx (str "**User**:") m.content
          && !hasPfx (str "**AI**:") m.content)) = true
    ∧ parseMarkdownToSession 7 9
        (exportSessionToMarkdown ⟨1, str "T", [⟨Role.user, str " hi", none⟩], 0⟩)
        = some ⟨7, str "T", [⟨Role.user, str "hi", none⟩], 9⟩
    ∧ str "hi" ≠ str " hi" := by decide

/-- C3 (witness for the amended theorem). -/
theorem export_import_roundtrip_w :
    parseMarkdownToSession 5 6
        (exportSessionToMarkdown ⟨1, str "T", [⟨Role.user, str "hi", none⟩], 0⟩)
      = some ⟨5, str "T", [⟨Role.user, str "hi", none⟩], 6⟩ := by
  have := export_import_roundtrip ⟨1, str "T", [⟨Role.user, str "hi", none⟩], 0⟩ 5 6
    (by decide) (by decide) (by decide) (by decide)
  simpa using this
